import Mathlib

/-!
A shallow embedding of the RepoSage repository-operation orchestration layer:
GitHub URL coordinate resolution, branch-candidate fallback for file reads,
AI publish operations, label generation, ephemeral-workspace tool runs and
their cleanup, and best-effort test-output classification.  External effects
(HTTP fetches, subprocess execution, the filesystem) are supplied through
explicit environment records; everything else is translated directly from
the source functions.
-/

namespace RepoSage

/-- Single-quote character, used inside embedded error-message strings. -/
def sq : String := String.singleton (Char.ofNat 39)

/-- JavaScript truthiness for an optional string: null, undefined and the
empty string are falsy. -/
def jsTruthy (o : Option String) : Option String :=
  match o with
  | some s => if s = "" then none else some s
  | none => none

/-- Models the JavaScript pattern a || dflt for an optional string a. -/
def truthyOr (o : Option String) (dflt : String) : String :=
  match jsTruthy o with
  | some s => s
  | none => dflt

/-- Truthiness of an optional string, as a Bool. -/
def optTruthy (o : Option String) : Bool := (jsTruthy o).isSome

/-- Index of the first occurrence of pat inside s, scanning left to right. -/
def findOcc (pat : List Char) : List Char → Option Nat
  | [] => if pat.isPrefixOf ([] : List Char) then some 0 else none
  | c :: rest =>
      if pat.isPrefixOf (c :: rest) then some 0
      else (findOcc pat rest).map (· + 1)

/-- Substring test, modelling the JavaScript String.includes method. -/
def containsStr (pat s : List Char) : Bool := (findOcc pat s).isSome

/-- Models the JavaScript s.replace(pat, emptyString) where pat is a plain
string: only the FIRST occurrence of pat is removed. -/
def replaceFirstList (pat s : List Char) : List Char :=
  match findOcc pat s with
  | none => s
  | some n => s.take n ++ s.drop (n + pat.length)

/-- The characters of ".git", the pattern removed from repository names. -/
def gitChars : List Char := ['.', 'g', 'i', 't']

/-- A character other than the path separator, for the regex class `[^\/]`. -/
def notSlash (c : Char) : Bool := c ≠ '/'

/-- The literal part of the repository-URL regex. -/
def ghPat : List Char := "github.com/".data

/-- One attempt of the regex github\.com\/([^\/]+)\/([^\/]+) at the head of
s, returning the two captured groups. -/
def matchGhAt (s : List Char) : Option (List Char × List Char) :=
  if ghPat.isPrefixOf s then
    let rest := s.drop ghPat.length
    let owner := rest.takeWhile notSlash
    if owner.isEmpty then none
    else
      match rest.drop owner.length with
      | '/' :: rest3 =>
          let repo := rest3.takeWhile notSlash
          if repo.isEmpty then none else some (owner, repo)
      | _ => none
  else none

/-- Left-to-right scan of the regex github\.com\/([^\/]+)\/([^\/]+), as the
JavaScript String.match performs it (earliest match wins). -/
def jsMatchGh : List Char → Option (List Char × List Char)
  | [] => none
  | c :: rest =>
      match matchGhAt (c :: rest) with
      | some r => some r
      | none => jsMatchGh rest

/-- Repository coordinates, as produced by extractRepoIdentifiers. -/
structure GitHubRepoIdentifiers where
  owner : String
  repo : String
deriving DecidableEq, Repr

/-- Embeds extractRepoIdentifiers: match the URL against the GitHub regex,
fail on no match, and build the coordinates with repo.replace evaluated on
the second capture (first occurrence of ".git" removed). -/
def extractRepoIdentifiers (repoUrl : String) : Except String GitHubRepoIdentifiers :=
  match jsMatchGh repoUrl.data with
  | none => Except.error "Invalid GitHub URL"
  | some (o, r) => Except.ok { owner := ⟨o⟩, repo := ⟨replaceFirstList gitChars r⟩ }

theorem isPrefixOf_append_self (p x : List Char) : p.isPrefixOf (p ++ x) = true := by
  induction p with
  | nil => simp [List.isPrefixOf]
  | cons c cs ih => simp [List.isPrefixOf, ih]

theorem findOcc_some_isPrefixOf (pat : List Char) :
    ∀ (s : List Char) (n : Nat), findOcc pat s = some n →
      pat.isPrefixOf (s.drop n) = true := by
  intro s
  induction s with
  | nil =>
      intro n h
      unfold findOcc at h
      cases hb : pat.isPrefixOf ([] : List Char) with
      | false => simp [hb] at h
      | true =>
          simp only [hb, if_true] at h
          cases h
          simpa using hb
  | cons c rest ih =>
      intro n h
      unfold findOcc at h
      cases hb : pat.isPrefixOf (c :: rest) with
      | true =>
          simp only [hb, if_true] at h
          cases h
          simpa using hb
      | false =>
          simp only [hb, Bool.false_eq_true, if_false, Option.map_eq_some'] at h
          rcases h with ⟨m, hm, rfl⟩
          simpa using ih m hm

theorem findOcc_min (pat : List Char) :
    ∀ (s : List Char) (n : Nat), findOcc pat s = some n →
      ∀ m, m < n → pat.isPrefixOf (s.drop m) = false := by
  intro s
  induction s with
  | nil =>
      intro n h m hm
      unfold findOcc at h
      cases hb : pat.isPrefixOf ([] : List Char) with
      | false => simp [hb] at h
      | true =>
          simp only [hb, if_true] at h
          cases h
          omega
  | cons c rest ih =>
      intro n h m hm
      unfold findOcc at h
      cases hb : pat.isPrefixOf (c :: rest) with
      | true =>
          simp only [hb, if_true] at h
          cases h
          omega
      | false =>
          simp only [hb, Bool.false_eq_true, if_false, Option.map_eq_some'] at h
          rcases h with ⟨k, hk, rfl⟩
          cases m with
          | zero => simpa using hb
          | succ j => simpa using ih k hk j (by omega)

set_option maxRecDepth 8192 in
/-- C8 counterexample: the URL segment foo.git.git resolves, but only the
first occurrence of ".git" is removed, so the repo field still ends in
".git", refuting the claimed invariant. -/
theorem repo_git_suffix_cex :
    extractRepoIdentifiers "https://github.com/o/foo.git.git" =
      Except.ok { owner := "o", repo := "foo.git" } ∧
    ".git".data.isSuffixOf "foo.git".data = true := by
  exact ⟨rfl, by decide⟩

/-- C8 (amended): coordinate resolution is a pure function of the URL, and
the repo field is the matched repo segment with its FIRST occurrence of
".git" removed; hence whenever that first occurrence is the trailing one,
the resulting repo retains no trailing ".git". -/
theorem repo_git_suffix_amended (url : String) (o s : List Char) (n : Nat)
    (hmatch : jsMatchGh url.data = some (o, s))
    (hocc : findOcc gitChars s = some n)
    (hlen : s.length = n + 4) :
    extractRepoIdentifiers url = Except.ok { owner := ⟨o⟩, repo := ⟨s.take n⟩ } ∧
    ¬ List.IsSuffix gitChars (s.take n) := by
  have hdrop : s.drop (n + gitChars.length) = [] := by
    apply List.drop_eq_nil_of_le
    simp [gitChars]
    omega
  have hrep : replaceFirstList gitChars s = s.take n := by
    simp only [replaceFirstList, hocc, hdrop, List.append_nil]
  constructor
  · simp only [extractRepoIdentifiers, hmatch, hrep]
  · rintro ⟨t, ht⟩
    have hntake : (s.take n).length = n := by
      rw [List.length_take]
      omega
    have htl : t.length + 4 = n := by
      have := congrArg List.length ht
      simp [gitChars] at this
      omega
    have hs : s = t ++ (gitChars ++ s.drop n) := by
      conv_lhs => rw [← List.take_append_drop n s]
      rw [← ht, List.append_assoc]
    have hpre : gitChars.isPrefixOf (s.drop t.length) = true := by
      rw [hs, List.drop_left]
      exact isPrefixOf_append_self gitChars (s.drop n)
    have hmin := findOcc_min gitChars s n hocc t.length (by omega)
    rw [hmin] at hpre
    cases hpre

set_option maxRecDepth 8192 in
/-- C8 amended witness: concrete instance with a single trailing ".git". -/
theorem repo_git_suffix_amended_witness :
    extractRepoIdentifiers "https://github.com/o/r.git" =
      Except.ok { owner := ⟨"o".data⟩, repo := ⟨"r.git".data.take 1⟩ } ∧
    ¬ List.IsSuffix gitChars ("r.git".data.take 1) :=
  repo_git_suffix_amended "https://github.com/o/r.git" "o".data "r.git".data 1
    (by decide) (by decide) (by decide)

/-! Branch-candidate resolution and readFileFromRepo. -/

/-- The structured result of a successful file read. -/
structure FileResult where
  content : String
  path : String
  size : Nat
  encoding : String
deriving DecidableEq, Repr

/-- Environment for readFileFromRepo: token configuration, the outcome of
the getDefaultBranch call (none when that call threw, some none when it
returned null), the outcome of the content fetch per branch (folded to
either a file result or the message stored into lastError), and the outcome
of the doesBranchExist diagnostic probe (none when that call threw). -/
structure ReadEnv where
  ghToken : Option String
  defaultBranch : Option (Option String)
  fetch : String → Except String FileResult
  branchExistsProbe : Option Bool

/-- Embeds the candidate-list construction of readFileFromRepo: push the
explicit branch when truthy, append the default branch when truthy and not
already present, and push "main" and "master" only when the list is still
empty. -/
def branchesToTry (branch : Option String) (defaultBranch : Option (Option String)) :
    List String :=
  let l1 : List String :=
    match jsTruthy branch with
    | some b => [b]
    | none => []
  let l2 : List String :=
    match defaultBranch with
    | some d =>
        match jsTruthy d with
        | some d0 => if d0 ∈ l1 then l1 else l1 ++ [d0]
        | none => l1
    | none => l1
  if l2 = [] then ["main", "master"] else l2

/-- The for-loop of readFileFromRepo: try each candidate, return the first
success, otherwise remember the latest error in lastError. -/
def tryBranches (fetch : String → Except String FileResult) :
    List String → Option String → Except (Option String) FileResult
  | [], lastError => Except.error lastError
  | b :: rest, _lastError =>
      match fetch b with
      | Except.ok r => Except.ok r
      | Except.error e => tryBranches fetch rest (some e)

/-- The final error thrown by readFileFromRepo after all candidates fail. -/
def finalReadErrMsg (repoName filePath : String) (lastError : Option String) : String :=
  "Failed to fetch file " ++ sq ++ filePath ++ sq ++ " from " ++ repoName ++
    ". Last error: " ++ lastError.getD "undefined" ++
    ". Path might not exist. Use list-repo-files to explore directories."

/-- The branch-not-found message built inside the diagnostic probe. -/
def branchNotFoundMsg (repoName filePath branch : String) : String :=
  "Failed to fetch file " ++ sq ++ filePath ++ sq ++ " from " ++ repoName ++
    ". Branch " ++ sq ++ branch ++ sq ++ " not found."

/-- Embeds readFileFromRepo.  Note the diagnostic probe: in the source the
branch-not-found Error is thrown inside a try block whose empty catch
discards every error, so the probe outcome, computed here, is then
unconditionally discarded and the generic final error is always thrown. -/
def readFileFromRepo (env : ReadEnv) (repoUrl filePath : String)
    (branch : Option String) : Except String FileResult :=
  match extractRepoIdentifiers repoUrl with
  | Except.error e => Except.error e
  | Except.ok ids =>
    let repoName := ids.owner ++ "/" ++ ids.repo
    match env.ghToken with
    | none => Except.error "GITHUB_TOKEN not set"
    | some _ =>
      let candidates := branchesToTry branch env.defaultBranch
      match tryBranches env.fetch candidates none with
      | Except.ok r => Except.ok r
      | Except.error lastError =>
          let probeOutcome : Except String Unit :=
            let branchToExplain := truthyOr branch (candidates.headD "")
            match env.branchExistsProbe with
            | none => Except.error "branch existence probe threw"
            | some ex =>
                if ex then Except.ok ()
                else Except.error (branchNotFoundMsg repoName filePath branchToExplain)
          match probeOutcome with
          | _ => Except.error (finalReadErrMsg repoName filePath lastError)

/-- Keep-first deduplication, for the spec-worded candidate list. -/
def dedupKeepFirst : List String → List String
  | [] => []
  | x :: xs => x :: (dedupKeepFirst xs).filter (fun y => y ≠ x)

/-- Modelled from the claim wording (for refinement comparison only): the
candidate list built as explicit, then repo default, then "main", then
"master", with duplicates removed. -/
def specCandidates (explicit defaultBranch : Option String) : List String :=
  dedupKeepFirst ((explicit.toList ++ defaultBranch.toList) ++ ["main", "master"])

/-- C2 counterexample: with no explicit branch and a resolved default branch
"develop", the code tries only ["develop"], while the claimed candidate list
is ["develop", "main", "master"]. -/
theorem branch_candidates_cex :
    branchesToTry none (some (some "develop")) = ["develop"] ∧
    specCandidates none (some "develop") = ["develop", "main", "master"] ∧
    (["develop"] : List String) ≠ ["develop", "main", "master"] :=
  ⟨by decide, by decide, by decide⟩

theorem tryBranches_first_success (fetch : String → Except String FileResult) :
    ∀ (pre : List String) (b : String) (post : List String) (r : FileResult)
      (acc : Option String),
      (∀ x ∈ pre, ∃ e, fetch x = Except.error e) →
      fetch b = Except.ok r →
      tryBranches fetch (pre ++ b :: post) acc = Except.ok r := by
  intro pre
  induction pre with
  | nil =>
      intro b post r acc _ hb
      simp [tryBranches, hb]
  | cons x xs ih =>
      intro b post r acc hpre hb
      rcases hpre x (by simp) with ⟨e, he⟩
      simp only [List.cons_append, tryBranches, he]
      exact ih b post r (some e) (fun y hy => hpre y (by simp [hy])) hb

/-- C2 (amended): the candidate list is the explicit branch, followed by the
default branch when resolved and distinct; "main" and "master" are appended
only when that list would otherwise be empty (no explicit branch and no
resolved default).  The first candidate whose content fetch succeeds
determines the result of readFileFromRepo. -/
theorem branch_candidates_amended :
    (∀ (explicit : Option String) (defB : Option (Option String)),
      (∀ b, explicit = some b → b ≠ "") →
      (∀ d, defB = some (some d) → d ≠ "") →
      branchesToTry explicit defB =
        match explicit, defB with
        | none, some (some d) => [d]
        | some b, some (some d) => if d = b then [b] else [b, d]
        | some b, _ => [b]
        | none, _ => ["main", "master"]) ∧
    (∀ (env : ReadEnv) (url path : String) (explicit : Option String)
      (t : String) (ids : GitHubRepoIdentifiers)
      (pre : List String) (b : String) (post : List String) (r : FileResult),
      extractRepoIdentifiers url = Except.ok ids →
      env.ghToken = some t →
      branchesToTry explicit env.defaultBranch = pre ++ b :: post →
      (∀ x ∈ pre, ∃ e, env.fetch x = Except.error e) →
      env.fetch b = Except.ok r →
      readFileFromRepo env url path explicit = Except.ok r) := by
  constructor
  · intro explicit defB h1 h2
    cases explicit with
    | none =>
        cases defB with
        | none => simp [branchesToTry, jsTruthy]
        | some d =>
            cases d with
            | none => simp [branchesToTry, jsTruthy]
            | some d0 =>
                have hd0 : ¬ d0 = "" := h2 d0 rfl
                simp [branchesToTry, jsTruthy, hd0]
    | some b =>
        have hb : ¬ b = "" := h1 b rfl
        cases defB with
        | none => simp [branchesToTry, jsTruthy, hb]
        | some d =>
            cases d with
            | none => simp [branchesToTry, jsTruthy, hb]
            | some d0 =>
                have hd0 : ¬ d0 = "" := h2 d0 rfl
                simp [branchesToTry, jsTruthy, hb, hd0, List.mem_singleton]
                by_cases hdb : d0 = b
                · simp [hdb]
                · simp [hdb]
  · intro env url path explicit t ids pre b post r hx ht hcand hpre hb
    unfold readFileFromRepo
    rw [hx]
    simp only
    rw [ht]
    simp only
    rw [hcand, tryBranches_first_success env.fetch pre b post r none hpre hb]

/-- Concrete environment for the C2 amended witness. -/
def envC2 : ReadEnv :=
  { ghToken := some "tok"
  , defaultBranch := some (some "dev")
  , fetch := fun b =>
      if b = "x" then Except.error "HTTP 404"
      else Except.ok ⟨"data", "p", 4, "base64"⟩
  , branchExistsProbe := some true }

set_option maxRecDepth 8192 in
/-- C2 amended witness: explicit branch "x" fails, resolved default "dev"
succeeds, and the read returns the "dev" result. -/
theorem branch_candidates_amended_witness :
    branchesToTry (some "x") (some (some "dev")) = ["x", "dev"] ∧
    readFileFromRepo envC2 "https://github.com/o/r" "p" (some "x") =
      Except.ok ⟨"data", "p", 4, "base64"⟩ := by
  constructor
  · have h := branch_candidates_amended.1 (some "x") (some (some "dev"))
      (by intro b hb; cases hb; decide) (by intro d hd; cases hd; decide)
    rw [h]
    decide
  · exact branch_candidates_amended.2 envC2 "https://github.com/o/r" "p" (some "x")
      "tok" ⟨"o", "r"⟩ ["x"] "dev" [] ⟨"data", "p", 4, "base64"⟩
      rfl rfl rfl
      (by
        intro x hx
        rw [List.mem_singleton] at hx
        subst hx
        exact ⟨"HTTP 404", rfl⟩)
      rfl

/-- Concrete environment for C3: every branch fetch fails with "e1" and the
diagnostic probe reports that the branch does not exist. -/
def envC3 : ReadEnv :=
  { ghToken := some "tok"
  , defaultBranch := some none
  , fetch := fun _ => Except.error "e1"
  , branchExistsProbe := some false }

set_option maxRecDepth 8192 in
/-- C3 (code bug): when every candidate fails and the probed branch does not
exist, the operation still throws the generic final error.  The
branch-not-found message is built but swallowed: the thrown error never
contains "not found", though it does contain the last underlying error. -/
theorem branch_probe_swallowed :
    readFileFromRepo envC3 "https://github.com/o/r" "f.txt" (some "nope") =
      Except.error (finalReadErrMsg "o/r" "f.txt" (some "e1")) ∧
    containsStr "not found".data (finalReadErrMsg "o/r" "f.txt" (some "e1")).data
      = false ∧
    containsStr "e1".data (finalReadErrMsg "o/r" "f.txt" (some "e1")).data
      = true :=
  ⟨rfl, by decide, by decide⟩

/-! AI pull-request operations: review, improve, ask, changelog, describe,
and label generation.  HTTP and LLM call outcomes are supplied by an
environment; prompt construction (which only feeds the LLM call) is not
re-modelled beyond the fields it reads. -/

/-- The PR metadata fields the operations read from the pulls endpoint. -/
structure PRMeta where
  title : Option String
  body : Option String
  diff_url : Option String
  comments_url : Option String
deriving DecidableEq, Repr

/-- Outcome of one publish fetch: HTTP success carrying the optional
html_url of the created comment, an HTTP rejection, or a thrown transport
exception. -/
inductive PublishOutcome where
  | httpOk (htmlUrl : Option String)
  | httpErr
  | exn (msg : String)
deriving DecidableEq, Repr

/-- Shared environment for the review / improve / ask / changelog
operations.  ghToken models process.env.GITHUB_TOKEN || (empty string);
commitsOk records the commits fetch, which only feeds the prompt. -/
structure AiOpEnv where
  ghToken : String
  openaiKey : Option String
  openaiModel : Option String
  prMetaResp : Except String PRMeta
  commitsOk : Bool
  diffResp : Except String String
  openaiResp : Except String String
  publishResp : PublishOutcome

/-- The model name default used across the operations. -/
def defaultModel : String := "gpt-4o-mini"

structure ImproveResult where
  success : Bool
  suggestions : String
  model : String
  publishedUrl : Option String
deriving DecidableEq, Repr

structure AskResult where
  success : Bool
  answer : String
  model : String
  publishedUrl : Option String
deriving DecidableEq, Repr

structure ReviewResult where
  success : Bool
  review : String
  model : String
  publishedUrl : Option String
deriving DecidableEq, Repr

structure ChangelogResult where
  success : Bool
  changelog : String
  model : String
  publishedUrl : Option String
deriving DecidableEq, Repr

/-- Embeds aiImprovePullRequest.  The publish fetch is NOT wrapped in
try/catch in the source, so a transport exception propagates and fails the
whole operation; an HTTP rejection merely leaves publishedUrl undefined. -/
def aiImprovePullRequest (env : AiOpEnv) (repoUrl : String) (_prNumber : Nat)
    (publish : Bool) : Except String ImproveResult :=
  match extractRepoIdentifiers repoUrl with
  | Except.error e => Except.error e
  | Except.ok _ =>
  match env.openaiKey with
  | none => Except.error "OPENAI_API_KEY not set"
  | some _ =>
  match env.prMetaResp with
  | Except.error e => Except.error ("Failed to fetch PR metadata: " ++ e)
  | Except.ok pm =>
  match pm.diff_url with
  | none => Except.error "PR diff URL is missing"
  | some _ =>
  match env.diffResp with
  | Except.error e => Except.error ("Failed to fetch PR diff: " ++ e)
  | Except.ok _diff =>
  match env.openaiResp with
  | Except.error e => Except.error ("OpenAI failed: " ++ e)
  | Except.ok suggestions =>
    let model := truthyOr env.openaiModel defaultModel
    if publish && !(env.ghToken == "") && (jsTruthy pm.comments_url).isSome then
      match env.publishResp with
      | PublishOutcome.exn e => Except.error e
      | PublishOutcome.httpOk u =>
          Except.ok { success := true, suggestions, model, publishedUrl := u }
      | PublishOutcome.httpErr =>
          Except.ok { success := true, suggestions, model, publishedUrl := none }
    else
      Except.ok { success := true, suggestions, model, publishedUrl := none }

/-- Embeds aiAskPullRequest; same publish structure as
aiImprovePullRequest (no try/catch around the publish fetch). -/
def aiAskPullRequest (env : AiOpEnv) (repoUrl : String) (_prNumber : Nat)
    (_question : String) (publish : Bool) : Except String AskResult :=
  match extractRepoIdentifiers repoUrl with
  | Except.error e => Except.error e
  | Except.ok _ =>
  match env.openaiKey with
  | none => Except.error "OPENAI_API_KEY not set"
  | some _ =>
  match env.prMetaResp with
  | Except.error e => Except.error ("Failed to fetch PR metadata: " ++ e)
  | Except.ok pm =>
  match env.openaiResp with
  | Except.error e => Except.error ("OpenAI failed: " ++ e)
  | Except.ok answer =>
    let model := truthyOr env.openaiModel defaultModel
    if publish && !(env.ghToken == "") && (jsTruthy pm.comments_url).isSome then
      match env.publishResp with
      | PublishOutcome.exn e => Except.error e
      | PublishOutcome.httpOk u =>
          Except.ok { success := true, answer, model, publishedUrl := u }
      | PublishOutcome.httpErr =>
          Except.ok { success := true, answer, model, publishedUrl := none }
    else
      Except.ok { success := true, answer, model, publishedUrl := none }

/-- Embeds aiDraftChangelog; the commits fetch feeds only the prompt, and
the publish fetch is again not wrapped in try/catch. -/
def aiDraftChangelog (env : AiOpEnv) (repoUrl : String) (_prNumber : Nat)
    (publish : Bool) : Except String ChangelogResult :=
  match extractRepoIdentifiers repoUrl with
  | Except.error e => Except.error e
  | Except.ok _ =>
  match env.openaiKey with
  | none => Except.error "OPENAI_API_KEY not set"
  | some _ =>
  match env.prMetaResp with
  | Except.error e => Except.error ("Failed to fetch PR metadata: " ++ e)
  | Except.ok pm =>
  match env.openaiResp with
  | Except.error e => Except.error ("OpenAI failed: " ++ e)
  | Except.ok changelog =>
    let model := truthyOr env.openaiModel defaultModel
    if publish && !(env.ghToken == "") && (jsTruthy pm.comments_url).isSome then
      match env.publishResp with
      | PublishOutcome.exn e => Except.error e
      | PublishOutcome.httpOk u =>
          Except.ok { success := true, changelog, model, publishedUrl := u }
      | PublishOutcome.httpErr =>
          Except.ok { success := true, changelog, model, publishedUrl := none }
    else
      Except.ok { success := true, changelog, model, publishedUrl := none }

/-- Embeds aiReviewPullRequest.  Here the whole publish block IS inside a
try/catch, so even a transport exception (or a missing comments_url, which
makes fetch throw) is swallowed and publishedUrl is simply absent. -/
def aiReviewPullRequest (env : AiOpEnv) (repoUrl : String) (_prNumber : Nat)
    (publish : Bool) : Except String ReviewResult :=
  match extractRepoIdentifiers repoUrl with
  | Except.error e => Except.error e
  | Except.ok _ =>
  match env.openaiKey with
  | none => Except.error "OPENAI_API_KEY not set"
  | some _ =>
  match env.prMetaResp with
  | Except.error e => Except.error ("Failed to fetch PR meta: " ++ e)
  | Except.ok pm =>
  match pm.diff_url with
  | none => Except.error "Failed to parse URL"
  | some _ =>
  match env.diffResp with
  | Except.error e => Except.error ("Failed to fetch PR diff: " ++ e)
  | Except.ok _diff =>
  match env.openaiResp with
  | Except.error e => Except.error ("OpenAI failed: " ++ e)
  | Except.ok reviewText =>
    let model := truthyOr env.openaiModel defaultModel
    if publish && !(env.ghToken == "") then
      match pm.comments_url with
      | none =>
          Except.ok { success := true, review := reviewText, model, publishedUrl := none }
      | some _ =>
          match env.publishResp with
          | PublishOutcome.exn _ =>
              Except.ok { success := true, review := reviewText, model, publishedUrl := none }
          | PublishOutcome.httpOk u =>
              Except.ok { success := true, review := reviewText, model, publishedUrl := u }
          | PublishOutcome.httpErr =>
              Except.ok { success := true, review := reviewText, model, publishedUrl := none }
    else
      Except.ok { success := true, review := reviewText, model, publishedUrl := none }

theorem jsTruthy_eq_some {o : Option String} {s : String}
    (h : jsTruthy o = some s) : o = some s := by
  cases o with
  | none => simp [jsTruthy] at h
  | some t =>
      by_cases ht : t = ""
      · simp [jsTruthy, ht] at h
      · simp only [jsTruthy, if_neg ht] at h
        exact congrArg some (Option.some.inj h)

/-- Concrete environment refuting C4: the publish fetch throws. -/
def envC4 : AiOpEnv :=
  { ghToken := "tok"
  , openaiKey := some "k"
  , openaiModel := none
  , prMetaResp := Except.ok ⟨some "t", some "b", some "du", some "cu"⟩
  , commitsOk := true
  , diffResp := Except.ok "diff"
  , openaiResp := Except.ok "text"
  , publishResp := PublishOutcome.exn "socket hang up" }

set_option maxRecDepth 8192 in
/-- C4 counterexample: the improve operation generated its text, yet a
transport exception thrown while posting the comment makes the whole
operation fail instead of returning the text with publishedUrl absent. -/
theorem publish_failure_cex :
    aiImprovePullRequest envC4 "https://github.com/o/r" 1 true =
      Except.error "socket hang up" := rfl

/-- C4 (amended): an HTTP rejection of the publish step never fails any of
the four operations (the generated text is returned with publishedUrl
absent); a transport exception is swallowed only by the review operation,
while in improve / ask / changelog it propagates and fails the operation. -/
theorem publish_failure_amended :
    ∀ (env : AiOpEnv) (url : String) (pr : Nat) (q : String)
      (ids : GitHubRepoIdentifiers) (k du cu df txt : String) (pm : PRMeta),
      extractRepoIdentifiers url = Except.ok ids →
      env.openaiKey = some k →
      env.prMetaResp = Except.ok pm →
      pm.diff_url = some du →
      jsTruthy pm.comments_url = some cu →
      env.diffResp = Except.ok df →
      env.openaiResp = Except.ok txt →
      env.ghToken ≠ "" →
      ((env.publishResp = PublishOutcome.httpErr →
          aiImprovePullRequest env url pr true =
            Except.ok ⟨true, txt, truthyOr env.openaiModel defaultModel, none⟩ ∧
          aiAskPullRequest env url pr q true =
            Except.ok ⟨true, txt, truthyOr env.openaiModel defaultModel, none⟩ ∧
          aiDraftChangelog env url pr true =
            Except.ok ⟨true, txt, truthyOr env.openaiModel defaultModel, none⟩ ∧
          aiReviewPullRequest env url pr true =
            Except.ok ⟨true, txt, truthyOr env.openaiModel defaultModel, none⟩) ∧
       (∀ e, env.publishResp = PublishOutcome.exn e →
          aiReviewPullRequest env url pr true =
            Except.ok ⟨true, txt, truthyOr env.openaiModel defaultModel, none⟩ ∧
          aiImprovePullRequest env url pr true = Except.error e ∧
          aiAskPullRequest env url pr q true = Except.error e ∧
          aiDraftChangelog env url pr true = Except.error e)) := by
  intro env url pr q ids k du cu df txt pm hx hk hpm hdu hcu hdf ho hg
  have hcu0 : pm.comments_url = some cu := jsTruthy_eq_some hcu
  have hcune : ¬ cu = "" := by
    intro h0
    rw [hcu0, h0] at hcu
    simp [jsTruthy] at hcu
  constructor
  · intro hpub
    refine ⟨?_, ?_, ?_, ?_⟩ <;>
      simp [aiImprovePullRequest, aiAskPullRequest, aiDraftChangelog,
        aiReviewPullRequest, jsTruthy, hx, hk, hpm, hdu, hcu0, hcune,
        hdf, ho, hg, hpub]
  · intro e hpub
    refine ⟨?_, ?_, ?_, ?_⟩ <;>
      simp [aiImprovePullRequest, aiAskPullRequest, aiDraftChangelog,
        aiReviewPullRequest, jsTruthy, hx, hk, hpm, hdu, hcu0, hcune,
        hdf, ho, hg, hpub]

/-- Concrete environment for the C4 amended witness: publish rejected. -/
def envC4httpErr : AiOpEnv :=
  { ghToken := "tok"
  , openaiKey := some "k"
  , openaiModel := none
  , prMetaResp := Except.ok ⟨some "t", some "b", some "du", some "cu"⟩
  , commitsOk := true
  , diffResp := Except.ok "diff"
  , openaiResp := Except.ok "text"
  , publishResp := PublishOutcome.httpErr }

set_option maxRecDepth 8192 in
/-- C4 amended witness: a rejected publish still returns the text, and a
thrown publish fails the improve operation. -/
theorem publish_failure_amended_witness :
    aiImprovePullRequest envC4httpErr "https://github.com/o/r" 1 true =
      Except.ok ⟨true, "text", truthyOr envC4httpErr.openaiModel defaultModel, none⟩ ∧
    aiImprovePullRequest envC4 "https://github.com/o/r" 1 true =
      Except.error "socket hang up" := by
  constructor
  · exact ((publish_failure_amended envC4httpErr "https://github.com/o/r" 1 "q"
      ⟨"o", "r"⟩ "k" "du" "cu" "diff" "text"
      ⟨some "t", some "b", some "du", some "cu"⟩
      rfl rfl rfl rfl rfl rfl rfl (by decide)).1 rfl).1
  · exact (((publish_failure_amended envC4 "https://github.com/o/r" 1 "q"
      ⟨"o", "r"⟩ "k" "du" "cu" "diff" "text"
      ⟨some "t", some "b", some "du", some "cu"⟩
      rfl rfl rfl rfl rfl rfl rfl (by decide)).2 "socket hang up" rfl).2).1

/-! The describe operation (PATCH with comment fallback) and label
generation. -/

/-- Environment for aiDescribePullRequest.  filesOk records the pulls/files
fetch, which only feeds the prompt; openaiParsed is the defensively parsed
(title, description) pair from the JSON-mode response (a parse failure
yields an empty object, hence (none, none)); patchResp is the outcome of
the PATCH on the pull request. -/
structure DescribeEnv where
  ghToken : String
  openaiKey : Option String
  openaiModel : Option String
  prMetaResp : Except String PRMeta
  filesOk : Bool
  openaiParsed : Except String (Option String × Option String)
  patchResp : PublishOutcome

structure DescribeResult where
  success : Bool
  title : String
  description : String
  model : String
  published : Bool
deriving DecidableEq, Repr

/-- The title computed by aiDescribePullRequest:
(parsed.title || prMeta.title || emptyString).slice(0, 256). -/
def describeTitle (pm : PRMeta) (parsed : Option String × Option String) : String :=
  (truthyOr parsed.1 (truthyOr pm.title "")).take 256

/-- The description computed by aiDescribePullRequest:
(parsed.description || emptyString).slice(0, 40000). -/
def describeDescription (parsed : Option String × Option String) : String :=
  (truthyOr parsed.2 "").take 40000

/-- The fallback comment body posted when the PATCH is rejected. -/
def suggestedBody (title description : String) : String :=
  "Suggested Title:\n" ++ title ++ "\n\nSuggested Description:\n\n" ++ description

/-- Embeds aiDescribePullRequest.  The second component lists the bodies of
comments the operation posts.  The publish block is inside try/catch: a
thrown PATCH is swallowed (published stays false, no comment); a rejected
PATCH falls back to posting the suggestions as a comment when a comments
endpoint is present.  The outcome of the fallback comment fetch itself is
ignored by the source, so it does not appear in the environment. -/
def aiDescribePullRequest (env : DescribeEnv) (repoUrl : String) (_prNumber : Nat)
    (publish : Bool) : Except String DescribeResult × List String :=
  match extractRepoIdentifiers repoUrl with
  | Except.error e => (Except.error e, [])
  | Except.ok _ =>
  match env.openaiKey with
  | none => (Except.error "OPENAI_API_KEY not set", [])
  | some _ =>
  match env.prMetaResp with
  | Except.error e => (Except.error ("Failed to fetch PR: " ++ e), [])
  | Except.ok pm =>
  match env.openaiParsed with
  | Except.error e => (Except.error ("OpenAI failed: " ++ e), [])
  | Except.ok parsed =>
    let title := describeTitle pm parsed
    let description := describeDescription parsed
    let model := truthyOr env.openaiModel defaultModel
    if publish && !(env.ghToken == "") then
      match env.patchResp with
      | PublishOutcome.httpOk _ =>
          (Except.ok { success := true, title, description, model, published := true }, [])
      | PublishOutcome.httpErr =>
          match jsTruthy pm.comments_url with
          | some _ =>
              (Except.ok { success := true, title, description, model, published := false },
               [suggestedBody title description])
          | none =>
              (Except.ok { success := true, title, description, model, published := false },
               [])
      | PublishOutcome.exn _ =>
          (Except.ok { success := true, title, description, model, published := false }, [])
    else
      (Except.ok { success := true, title, description, model, published := false }, [])

/-- C5: when publish is requested and the PATCH is rejected, the operation
posts exactly one comment, whose body is the suggested title and suggested
description in the fixed template, and still returns success true. -/
theorem describe_patch_fallback (env : DescribeEnv) (url : String) (pr : Nat)
    (ids : GitHubRepoIdentifiers) (k cu : String) (pm : PRMeta)
    (parsed : Option String × Option String)
    (hx : extractRepoIdentifiers url = Except.ok ids)
    (hk : env.openaiKey = some k)
    (hpm : env.prMetaResp = Except.ok pm)
    (hcu : jsTruthy pm.comments_url = some cu)
    (hp : env.openaiParsed = Except.ok parsed)
    (hg : env.ghToken ≠ "")
    (hpatch : env.patchResp = PublishOutcome.httpErr) :
    (aiDescribePullRequest env url pr true).1 =
      Except.ok { success := true
                , title := describeTitle pm parsed
                , description := describeDescription parsed
                , model := truthyOr env.openaiModel defaultModel
                , published := false } ∧
    (aiDescribePullRequest env url pr true).2 =
      [suggestedBody (describeTitle pm parsed) (describeDescription parsed)] ∧
    suggestedBody (describeTitle pm parsed) (describeDescription parsed) =
      "Suggested Title:\n" ++ describeTitle pm parsed ++
        ("\n\nSuggested Description:\n\n" ++ describeDescription parsed) := by
  refine ⟨?_, ?_, ?_⟩
  · simp [aiDescribePullRequest, hx, hk, hpm, hcu, hp, hg, hpatch]
  · simp [aiDescribePullRequest, hx, hk, hpm, hcu, hp, hg, hpatch]
  · simp [suggestedBody, String.append_assoc]

/-- Concrete environment for the C5 witness. -/
def envC5 : DescribeEnv :=
  { ghToken := "tok"
  , openaiKey := some "k"
  , openaiModel := some "m"
  , prMetaResp := Except.ok ⟨some "old title", some "old body", some "du", some "cu"⟩
  , filesOk := true
  , openaiParsed := Except.ok (some "New title", some "New description")
  , patchResp := PublishOutcome.httpErr }

set_option maxRecDepth 8192 in
/-- C5 witness: concrete 403-style PATCH rejection with a comments
endpoint present. -/
theorem describe_patch_fallback_witness :
    (aiDescribePullRequest envC5 "https://github.com/o/r" 5 true).1 =
      Except.ok { success := true
                , title := describeTitle
                    ⟨some "old title", some "old body", some "du", some "cu"⟩
                    (some "New title", some "New description")
                , description := describeDescription
                    (some "New title", some "New description")
                , model := truthyOr envC5.openaiModel defaultModel
                , published := false } ∧
    (aiDescribePullRequest envC5 "https://github.com/o/r" 5 true).2 =
      [suggestedBody
        (describeTitle ⟨some "old title", some "old body", some "du", some "cu"⟩
          (some "New title", some "New description"))
        (describeDescription (some "New title", some "New description"))] := by
  have h := describe_patch_fallback envC5 "https://github.com/o/r" 5 ⟨"o", "r"⟩
    "k" "cu" ⟨some "old title", some "old body", some "du", some "cu"⟩
    (some "New title", some "New description")
    rfl rfl rfl rfl rfl (by decide) rfl
  exact ⟨h.1, h.2.1⟩

/-- Environment for generateAndApplyLabels: llmLabels is the labels field
of the defensively parsed JSON-mode response (none when the field is
absent or the JSON was malformed); addLabelsResp is the outcome of the
apply-labels POST. -/
structure LabelsEnv where
  ghToken : Option String
  openaiKey : Option String
  openaiModel : Option String
  prMetaResp : Except String PRMeta
  llmLabels : Except String (Option (List String))
  addLabelsResp : Except String Unit

/-- Models the JavaScript String.prototype.trim: whitespace stripped from
both ends. -/
def jsTrim (s : String) : String :=
  ⟨((s.data.dropWhile Char.isWhitespace).reverse.dropWhile Char.isWhitespace).reverse⟩

/-- The label pipeline of generateAndApplyLabels:
(parsed.labels || []).slice(0, maxLabels).map(trim).filter(nonempty). -/
def processLabels (labels : List String) (maxLabels : Nat) : List String :=
  ((labels.take maxLabels).map jsTrim).filter (fun l => decide (0 < l.length))

/-- Result of generateAndApplyLabels plus the label list sent to the
apply-labels endpoint (none when the POST was never issued). -/
structure LabelsOut where
  result : Except String (List String)
  sent : Option (List String)
deriving Repr

/-- Embeds generateAndApplyLabels. -/
def generateAndApplyLabels (env : LabelsEnv) (repoUrl : String)
    (_prNumber maxLabels : Nat) : LabelsOut :=
  match extractRepoIdentifiers repoUrl with
  | Except.error e => { result := Except.error e, sent := none }
  | Except.ok _ =>
  match env.ghToken with
  | none => { result := Except.error "GITHUB_TOKEN not set", sent := none }
  | some _ =>
  match env.openaiKey with
  | none => { result := Except.error "OPENAI_API_KEY not set", sent := none }
  | some _ =>
  match env.prMetaResp with
  | Except.error e =>
      { result := Except.error ("Failed to fetch PR metadata: " ++ e), sent := none }
  | Except.ok _pm =>
  match env.llmLabels with
  | Except.error e =>
      { result := Except.error ("OpenAI failed: " ++ e), sent := none }
  | Except.ok parsedLabels =>
    let labels := processLabels (parsedLabels.getD []) maxLabels
    match env.addLabelsResp with
    | Except.error e =>
        { result := Except.error ("Failed to apply labels: " ++ e), sent := some labels }
    | Except.ok _ => { result := Except.ok labels, sent := some labels }

theorem processLabels_spec (L : List String) (n : Nat) :
    (processLabels L n).length ≤ n ∧
    ∀ l ∈ processLabels L n, l ≠ "" ∧ ∃ s, l = jsTrim s := by
  constructor
  · calc (processLabels L n).length
        ≤ ((L.take n).map jsTrim).length := List.length_filter_le _ _
      _ = (L.take n).length := List.length_map _ _
      _ ≤ n := List.length_take_le n L
  · intro l hl
    unfold processLabels at hl
    rw [List.mem_filter] at hl
    obtain ⟨hmem, hpos⟩ := hl
    refine ⟨?_, ?_⟩
    · intro he
      subst he
      simp at hpos
    · rcases List.mem_map.mp hmem with ⟨s, _, rfl⟩
      exact ⟨s, rfl⟩

/-- Concrete environment for the C6 scenario. -/
def envC6 : LabelsEnv :=
  { ghToken := some "tok"
  , openaiKey := some "k"
  , openaiModel := none
  , prMetaResp := Except.ok ⟨some "t", some "b", none, none⟩
  , llmLabels := Except.ok (some ["bug", "docs", "tests"])
  , addLabelsResp := Except.ok () }

set_option maxRecDepth 8192 in
/-- C6: whenever the apply-labels POST is issued, the list sent carries at
most maxLabels labels, each trimmed and non-empty; and in the concrete
scenario with maxLabels 2 and labels bug, docs, tests, exactly bug and docs
are applied. -/
theorem labels_cap_trim :
    (∀ (env : LabelsEnv) (url : String) (pr maxLabels : Nat) (sent : List String),
      (generateAndApplyLabels env url pr maxLabels).sent = some sent →
      sent.length ≤ maxLabels ∧ ∀ l ∈ sent, l ≠ "" ∧ ∃ s, l = jsTrim s) ∧
    ((generateAndApplyLabels envC6 "https://github.com/o/r" 7 2).sent =
        some ["bug", "docs"] ∧
     (generateAndApplyLabels envC6 "https://github.com/o/r" 7 2).result =
        Except.ok ["bug", "docs"]) := by
  constructor
  · intro env url pr maxLabels sent h
    unfold generateAndApplyLabels at h
    repeat' split at h
    all_goals simp only [Option.some.injEq] at h
    all_goals try exact absurd h (by simp)
    all_goals subst h
    all_goals exact processLabels_spec _ _
  · exact ⟨rfl, rfl⟩

set_option maxRecDepth 8192 in
/-- C6 witness: the general cap/trim property applied at the concrete
scenario environment. -/
theorem labels_cap_trim_witness :
    (["bug", "docs"] : List String).length ≤ 2 ∧
    ∀ l ∈ (["bug", "docs"] : List String), l ≠ "" ∧ ∃ s, l = jsTrim s :=
  labels_cap_trim.1 envC6 "https://github.com/o/r" 7 2 ["bug", "docs"] rfl

/-! Ephemeral-workspace operations: checkDependencies, formatCode,
fixLintErrors, runTests, analyzeRepository.  Each returns its result
together with the temporary directories it created and the ones it removed
in its finally block (rm with recursive and force set is modelled as
succeeding); directories are tracked so cleanup, the property of interest,
is visible on every exit path.  Wall-clock fields (duration, timestamp) are
not modelled. -/

/-- Result record of an operation together with its filesystem trace. -/
structure OpTrace (α : Type) where
  result : α
  created : List String
  removed : List String

/-- One entry of the parsed npm outdated JSON record. -/
structure NpmOutdatedEntry where
  current : Option String
  latest : Option String
  depType : Option String
deriving DecidableEq, Repr

/-- One outdated dependency in the structured result. -/
structure OutdatedDep where
  name : String
  current : String
  latest : String
  depType : String
deriving DecidableEq, Repr

/-- One entry of the parsed npm audit vulnerabilities record. -/
structure NpmAuditVulnerability where
  name : Option String
  severity : Option String
  title : Option String
deriving DecidableEq, Repr

/-- One vulnerability in the structured result. -/
structure Vuln where
  name : String
  severity : String
  description : String
deriving DecidableEq, Repr

/-- The VALID_SEVERITIES set. -/
def validSeverities : List String := ["critical", "high", "moderate", "low"]

/-- Lower-casing as used on the severity field. -/
def jsToLower (s : String) : String := ⟨s.data.map Char.toLower⟩

/-- Maps the npm outdated record entries to the structured list. -/
def mapOutdated (record : List (String × NpmOutdatedEntry)) : List OutdatedDep :=
  record.map fun p =>
    { name := p.1
    , current := p.2.current.getD "unknown"
    , latest := p.2.latest.getD "unknown"
    , depType :=
        if p.2.depType = some "devDependencies" then "devDependencies"
        else "dependencies" }

/-- Maps one audit vulnerability; unknown severities default to low. -/
def mapVuln (v : NpmAuditVulnerability) : Vuln :=
  { name := v.name.getD "unknown"
  , severity :=
      match v.severity with
      | some s => if jsToLower s ∈ validSeverities then jsToLower s else "low"
      | none => "low"
  , description := truthyOr v.title "No description" }

/-- Environment for checkDependencies: the mkdtemp call, the shallow clone,
and the two npm pipelines (subprocess run plus JSON parse, either of whose
failures lands in the inner catch). -/
structure DepsEnv where
  mkdtempResult : Except String String
  cloneResult : Except String Unit
  npmOutdated : Except String (List (String × NpmOutdatedEntry))
  npmAudit : Except String (List NpmAuditVulnerability)

structure DepsResult where
  outdated : List OutdatedDep
  vulnerabilities : List Vuln
  summary : String
deriving DecidableEq, Repr

/-- The summary returned when the npm pipeline fails. -/
def noManifestSummary : String :=
  "No package.json found or unable to check dependencies"

/-- Embeds checkDependencies: clone errors propagate out of the outer try
(which has no catch, only a finally removing the directory); failures of
the npm pipeline are caught and produce the graceful empty result. -/
def checkDependencies (env : DepsEnv) (_repoUrl : String) :
    OpTrace (Except String DepsResult) :=
  match env.mkdtempResult with
  | Except.error e => { result := Except.error e, created := [], removed := [] }
  | Except.ok tmpDir =>
    match env.cloneResult with
    | Except.error e =>
        { result := Except.error e, created := [tmpDir], removed := [tmpDir] }
    | Except.ok _ =>
      match env.npmOutdated, env.npmAudit with
      | Except.ok outdatedRecord, Except.ok auditVulns =>
          let outdatedList := mapOutdated outdatedRecord
          let vulnerabilities := auditVulns.map mapVuln
          { result := Except.ok
              { outdated := outdatedList
              , vulnerabilities := vulnerabilities
              , summary := "Found " ++ toString outdatedList.length ++
                  " outdated packages and " ++ toString vulnerabilities.length ++
                  " vulnerabilities" }
          , created := [tmpDir], removed := [tmpDir] }
      | _, _ =>
          { result := Except.ok
              { outdated := [], vulnerabilities := [], summary := noManifestSummary }
          , created := [tmpDir], removed := [tmpDir] }

/-- Environment for formatCode and fixLintErrors: mkdtemp, clone, and the
single shell command whose failure is caught. -/
structure SimpleWsEnv where
  mkdtempResult : Except String String
  cloneResult : Except String Unit
  execOk : Bool

structure FormatResult where
  success : Bool
  filesFormatted : Nat
  changes : List String
deriving DecidableEq, Repr

/-- Embeds formatCode. -/
def formatCode (env : SimpleWsEnv) (_repoUrl : String) :
    OpTrace (Except String FormatResult) :=
  match env.mkdtempResult with
  | Except.error e => { result := Except.error e, created := [], removed := [] }
  | Except.ok tmpDir =>
    match env.cloneResult with
    | Except.error e =>
        { result := Except.error e, created := [tmpDir], removed := [tmpDir] }
    | Except.ok _ =>
      if env.execOk then
        { result := Except.ok
            { success := true, filesFormatted := 0
            , changes := ["Code formatted successfully"] }
        , created := [tmpDir], removed := [tmpDir] }
      else
        { result := Except.ok
            { success := false, filesFormatted := 0
            , changes := ["Failed to format code"] }
        , created := [tmpDir], removed := [tmpDir] }

structure LintFixResult where
  success : Bool
  errorsFixed : Nat
  remainingErrors : Nat
  message : String
deriving DecidableEq, Repr

/-- Embeds fixLintErrors. -/
def fixLintErrors (env : SimpleWsEnv) (_repoUrl : String) :
    OpTrace (Except String LintFixResult) :=
  match env.mkdtempResult with
  | Except.error e => { result := Except.error e, created := [], removed := [] }
  | Except.ok tmpDir =>
    match env.cloneResult with
    | Except.error e =>
        { result := Except.error e, created := [tmpDir], removed := [tmpDir] }
    | Except.ok _ =>
      if env.execOk then
        { result := Except.ok
            { success := true, errorsFixed := 0, remainingErrors := 0
            , message := "Lint errors fixed successfully" }
        , created := [tmpDir], removed := [tmpDir] }
      else
        { result := Except.ok
            { success := false, errorsFixed := 0, remainingErrors := 0
            , message := "Failed to fix lint errors" }
        , created := [tmpDir], removed := [tmpDir] }

/-! Test-output classification: a direct embedding of the regex heuristics
of runTests over stdout+stderr. -/

/-- Whitespace, for the regex class \s (approximated by Char.isWhitespace). -/
def isSpaceChar (c : Char) : Bool := c.isWhitespace

/-- Numeric value of a digit run, as Number would produce it. -/
def digitsVal (ds : List Char) : Nat :=
  ds.foldl (fun a c => a * 10 + (c.toNat - 48)) 0

/-- Case-insensitive literal match at the head of a string, returning the
rest on success (models the i regex flag). -/
def dropPrefixCI : List Char → List Char → Option (List Char)
  | [], s => some s
  | _ :: _, [] => none
  | p :: ps, c :: cs => if p.toLower = c.toLower then dropPrefixCI ps cs else none

/-- Matches one unit-word alternative followed by \s* and the keyword. -/
def matchUnitWord (keyword r1 w : List Char) : Option Unit :=
  match dropPrefixCI w r1 with
  | none => none
  | some r2 =>
      match dropPrefixCI keyword (r2.dropWhile isSpaceChar) with
      | none => none
      | some _ => some ()

/-- One attempt, at the head of s, of
(\d+)\s*(?:test(?:s)?|spec(?:s)?)\s*keyword with the i flag: greedy digits,
optional whitespace, then a unit word (the longer alternative first, as the
regex backtracking order gives), optional whitespace, then the keyword. -/
def matchCountKeywordAt (keyword s : List Char) : Option Nat :=
  let ds := s.takeWhile Char.isDigit
  if ds.isEmpty then none
  else
    let r1 := (s.drop ds.length).dropWhile isSpaceChar
    match matchUnitWord keyword r1 "tests".data with
    | some _ => some (digitsVal ds)
    | none =>
    match matchUnitWord keyword r1 "test".data with
    | some _ => some (digitsVal ds)
    | none =>
    match matchUnitWord keyword r1 "specs".data with
    | some _ => some (digitsVal ds)
    | none =>
    match matchUnitWord keyword r1 "spec".data with
    | some _ => some (digitsVal ds)
    | none => none

/-- One attempt, at the head of s, of mark\s*(\d+). -/
def matchMarkAt (mark : Char) : List Char → Option Nat
  | [] => none
  | c :: rest =>
      if c = mark then
        let ds := (rest.dropWhile isSpaceChar).takeWhile Char.isDigit
        if ds.isEmpty then none else some (digitsVal ds)
      else none

/-- One attempt, at the head of s, of (\d+)\s*word with the i flag. -/
def matchNumWordAt (w s : List Char) : Option Nat :=
  let ds := s.takeWhile Char.isDigit
  if ds.isEmpty then none
  else
    match dropPrefixCI w ((s.drop ds.length).dropWhile isSpaceChar) with
    | some _ => some (digitsVal ds)
    | none => none

/-- Left-to-right scan: the earliest position where the matcher succeeds,
as String.match does. -/
def scanFor (f : List Char → Option Nat) : List Char → Option Nat
  | [] => none
  | c :: rest =>
      match f (c :: rest) with
      | some n => some n
      | none => scanFor f rest

/-- failedMatch: the count-failed regex, falling back to the cross mark. -/
def findFailed (output : List Char) : Option Nat :=
  match scanFor (matchCountKeywordAt "failed".data) output with
  | some n => some n
  | none => scanFor (matchMarkAt '✖') output

/-- passedMatch: the count-passed regex, falling back to the check mark. -/
def findPassed (output : List Char) : Option Nat :=
  match scanFor (matchCountKeywordAt "passed".data) output with
  | some n => some n
  | none => scanFor (matchMarkAt '✔') output

/-- totalMatch: the (\d+)\s*total regex. -/
def findTotal (output : List Char) : Option Nat :=
  scanFor (matchNumWordAt "total".data) output

structure TestRunResult where
  passed : Bool
  totalTests : Nat
  failedTests : Nat
  errors : List String
  output : String
deriving DecidableEq, Repr

/-- The classification of combined stdout+stderr in the local path of
runTests. -/
def classifyTestOutput (output : String) : TestRunResult :=
  let cs := output.data
  let failedTests := (findFailed cs).getD 0
  let passedTests := (findPassed cs).getD 0
  let totalTests := (findTotal cs).getD (failedTests + passedTests)
  { passed := failedTests == 0 && decide (0 < totalTests)
  , totalTests := totalTests
  , failedTests := failedTests
  , errors := if 0 < failedTests then [toString failedTests ++ " test(s) failed"] else []
  , output := output.take 1000 }

/-- The array [stdout, stderr].filter(Boolean).join(newline). -/
def joinTruthy (a b : String) : String :=
  if a = "" then b else if b = "" then a else a ++ "\n" ++ b

/-- The distinct parsing used on Nosana job output: (\d+)\s*failed and
(\d+)\s*passed with the i flag, plus substring checks on the lower-cased
output. -/
def nosanaParse (output : String) : TestRunResult :=
  let cs := output.data
  let failedM := scanFor (matchNumWordAt "failed".data) cs
  let passedM := scanFor (matchNumWordAt "passed".data) cs
  let lower := cs.map Char.toLower
  let failedTests :=
    match failedM with
    | some n => n
    | none => if containsStr "fail".data lower then 1 else 0
  let totalTests :=
    match passedM with
    | some p => p + failedTests
    | none => if 0 < failedTests then failedTests else 0
  { passed := failedTests == 0 && containsStr "pass".data lower
  , totalTests := totalTests
  , failedTests := failedTests
  , errors :=
      if 0 < failedTests then
        ["Tests reported failures. Inspect job logs for details."]
      else []
  , output := output }

/-- Outcome of a subprocess execution: success with captured streams, or a
thrown error (including timeouts) carrying whatever partial streams and
message the error object exposes. -/
inductive ExecOutcome where
  | ok (stdout stderr : String)
  | err (stdout stderr : Option String) (message : Option String)
deriving DecidableEq, Repr

/-- Environment for runTests: the Nosana feature flag and market, the
remote job execution, and the local mkdtemp / clone / test command. -/
structure TestsEnv where
  nosanaEnabled : Bool
  nosanaMarket : String
  nosanaExec : Except String (String × String)
  mkdtempResult : Except String String
  cloneResult : Except String Unit
  execResult : ExecOutcome

/-- Embeds runTests: the Nosana remote branch (no local workspace), the
missing-URL early return, and the local clone-and-run path with its
classification, inner command catch, outer catch, and finally cleanup. -/
def runTests (env : TestsEnv) (repoUrl : Option String) (_testCommand : Option String) :
    OpTrace TestRunResult :=
  if env.nosanaEnabled && optTruthy repoUrl then
    if env.nosanaMarket = "" then
      { result := { passed := false, totalTests := 0, failedTests := 0
                  , errors := ["NOSANA_ENABLED set but NOSANA_MARKET missing"]
                  , output := "" }
      , created := [], removed := [] }
    else
      match env.nosanaExec with
      | Except.ok p =>
          { result := nosanaParse (joinTruthy p.1 p.2), created := [], removed := [] }
      | Except.error e =>
          { result := { passed := false, totalTests := 0, failedTests := 0
                      , errors := [e], output := "" }
          , created := [], removed := [] }
  else if !(optTruthy repoUrl) then
    { result := { passed := false, totalTests := 0, failedTests := 0
                , errors := ["Repository URL is required to run tests"]
                , output := "" }
    , created := [], removed := [] }
  else
    match env.mkdtempResult with
    | Except.error e =>
        { result := { passed := false, totalTests := 0, failedTests := 0
                    , errors := ["Failed to run tests: " ++ e], output := "" }
        , created := [], removed := [] }
    | Except.ok tmpDir =>
      match env.cloneResult with
      | Except.error e =>
          { result := { passed := false, totalTests := 0, failedTests := 0
                      , errors := ["Failed to run tests: " ++ e], output := "" }
          , created := [tmpDir], removed := [tmpDir] }
      | Except.ok _ =>
        match env.execResult with
        | ExecOutcome.ok so se =>
            { result := classifyTestOutput (so ++ se)
            , created := [tmpDir], removed := [tmpDir] }
        | ExecOutcome.err so se msg =>
            { result := { passed := false, totalTests := 0, failedTests := 1
                        , errors := ["Test execution failed: " ++
                            truthyOr msg "Test execution failed"]
                        , output := ((so.getD "") ++ (se.getD "")).take 1000 }
            , created := [tmpDir], removed := [tmpDir] }

/-! The analyzeRepository operation. -/

structure CodeIssue where
  issueType : String
  severity : String
  file : Option String := none
  line : Option Nat := none
  message : String
  suggestion : Option String := none
deriving DecidableEq, Repr

structure RepoAnalysisResult where
  repoName : String
  branch : String
  lastCommit : String
  issues : List CodeIssue
  testsPass : Bool
deriving DecidableEq, Repr

/-- The JavaScript String.split on a separator character. -/
def splitOnChar (sep : Char) : List Char → List (List Char)
  | [] => [[]]
  | c :: rest =>
      let r := splitOnChar sep rest
      if c = sep then [] :: r
      else
        match r with
        | h :: t => (c :: h) :: t
        | [] => [[c]]

/-- Lint issues extracted from successful linter output: when the output
contains "error" or the cross mark, up to five matching lines become
medium lint_error issues. -/
def lintIssuesFromOutput (out : List Char) : List CodeIssue :=
  if containsStr "error".data out || containsStr ['✖'] out then
    (((splitOnChar '\n' out).filter
        (fun l => containsStr "error".data l || containsStr ['✖'] l)).take 5).map
      (fun l =>
        { issueType := "lint_error"
        , severity := "medium"
        , message := jsTrim ⟨l⟩
        , suggestion := some "Fix linting errors according to project ESLint configuration" })
  else []

/-- Lint issue produced when the lint command itself threw but exposed
output containing "error". -/
def lintIssuesFromErr (stdout stderr : Option String) : List CodeIssue :=
  if optTruthy stdout || optTruthy stderr then
    if containsStr "error".data ((stdout.getD "") ++ (stderr.getD "")).data then
      [{ issueType := "lint_error", severity := "medium"
       , message := "Linting errors detected"
       , suggestion := some "Run lint command to see detailed errors" }]
    else []
  else []

/-- CI check: with the recent workflow-run conclusions available (none
models a rejected or thrown runs fetch, which the source ignores), a
positive failure count flips testsPass and adds one high test_failure
issue. -/
def ciCheck (ciConclusions : Option (List (Option String))) : Bool × List CodeIssue :=
  match ciConclusions with
  | none => (true, [])
  | some runs =>
      let failed := (runs.filter (fun c => decide (c = some "failure"))).length
      if 0 < failed then
        (false,
         [{ issueType := "test_failure", severity := "high"
          , message := toString failed ++ " recent CI workflow(s) failed"
          , suggestion := some "Check GitHub Actions logs for failed test details" }])
      else (true, [])

/-- Environment for analyzeRepository: the repo-metadata fetch (carrying
the default branch), mkdtemp, clone, the git log call, the lint command,
and the CI runs fetch. -/
structure AnalyzeEnv where
  repoMeta : Except String (Option String)
  mkdtempResult : Except String String
  cloneResult : Except String Unit
  logResult : Except String (Option String)
  lintExec : ExecOutcome
  ciConclusions : Option (List (Option String))

/-- The catch-all fallback result of analyzeRepository. -/
def analyzeFallback (branch : Option String) (msg : String) : RepoAnalysisResult :=
  { repoName := "unknown"
  , branch := truthyOr branch "main"
  , lastCommit := "unknown"
  , issues := [{ issueType := "build_error", severity := "critical"
               , message := "Failed to analyze repository: " ++ msg
               , suggestion := some "Check repository URL and access permissions" }]
  , testsPass := false }

/-- Embeds analyzeRepository: everything runs in one big try whose catch
returns the fallback result, with a finally that removes the directory
when one was created (the metadata fetch and URL parse precede mkdtemp). -/
def analyzeRepository (env : AnalyzeEnv) (repoUrl : String) (branch : Option String) :
    OpTrace RepoAnalysisResult :=
  match extractRepoIdentifiers repoUrl with
  | Except.error _ =>
      { result := analyzeFallback branch "Invalid GitHub URL format"
      , created := [], removed := [] }
  | Except.ok ids =>
    let repoName := ids.owner ++ "/" ++ ids.repo
    match env.repoMeta with
    | Except.error e =>
        { result := analyzeFallback branch e, created := [], removed := [] }
    | Except.ok defBranch =>
      let targetBranch := truthyOr branch (truthyOr defBranch "main")
      match env.mkdtempResult with
      | Except.error e =>
          { result := analyzeFallback branch e, created := [], removed := [] }
      | Except.ok tmpDir =>
        match env.cloneResult with
        | Except.error e =>
            { result := analyzeFallback branch e
            , created := [tmpDir], removed := [tmpDir] }
        | Except.ok _ =>
          match env.logResult with
          | Except.error e =>
              { result := analyzeFallback branch e
              , created := [tmpDir], removed := [tmpDir] }
          | Except.ok latestHash =>
            let lastCommit := truthyOr (latestHash.map (fun h => h.take 7)) "unknown"
            let lintIssues :=
              match env.lintExec with
              | ExecOutcome.ok so se => lintIssuesFromOutput (so ++ se).data
              | ExecOutcome.err so se _ => lintIssuesFromErr so se
            let ci := ciCheck env.ciConclusions
            let issues := lintIssues ++ ci.2
            { result :=
                { repoName := repoName
                , branch := targetBranch
                , lastCommit := lastCommit
                , issues := issues
                , testsPass := ci.1 && issues.isEmpty }
            , created := [tmpDir], removed := [tmpDir] }

/-- C1: every ephemeral-workspace operation removes each temporary
directory it created on every exit path: normal return, clone failure,
command failure, and timeout (a thrown execution). -/
theorem workspace_cleanup_all_ops :
    ∀ (de : DepsEnv) (u1 : String) (te : TestsEnv) (u2 tc : Option String)
      (fe le : SimpleWsEnv) (u3 u4 : String)
      (ae : AnalyzeEnv) (u5 : String) (b5 : Option String),
      (checkDependencies de u1).created ⊆ (checkDependencies de u1).removed ∧
      (runTests te u2 tc).created ⊆ (runTests te u2 tc).removed ∧
      (formatCode fe u3).created ⊆ (formatCode fe u3).removed ∧
      (fixLintErrors le u4).created ⊆ (fixLintErrors le u4).removed ∧
      (analyzeRepository ae u5 b5).created ⊆ (analyzeRepository ae u5 b5).removed := by
  intro de u1 te u2 tc fe le u3 u4 ae u5 b5
  refine ⟨?_, ?_, ?_, ?_, ?_⟩
  · unfold checkDependencies
    repeat' split
    all_goals intro x hx; exact hx
  · unfold runTests
    repeat' split
    all_goals intro x hx; exact hx
  · unfold formatCode
    repeat' split
    all_goals intro x hx; exact hx
  · unfold fixLintErrors
    repeat' split
    all_goals intro x hx; exact hx
  · unfold analyzeRepository
    repeat' split
    all_goals intro x hx; exact hx

/-- C7: after a successful clone, a failing npm outdated/audit pipeline
(for example, no manifest in the repository) yields empty outdated and
vulnerability lists and the fixed non-empty explanatory summary, without
raising. -/
theorem deps_no_manifest_graceful :
    ∀ (env : DepsEnv) (u d : String),
      env.mkdtempResult = Except.ok d →
      env.cloneResult = Except.ok () →
      ((∃ e, env.npmOutdated = Except.error e) ∨
        (∃ e, env.npmAudit = Except.error e)) →
      (checkDependencies env u).result =
        Except.ok { outdated := [], vulnerabilities := [], summary := noManifestSummary } ∧
      noManifestSummary ≠ "" := by
  intro env u d hm hc hfail
  refine ⟨?_, by decide⟩
  unfold checkDependencies
  rw [hm, hc]
  rcases hfail with ⟨e, he⟩ | ⟨e, he⟩ <;>
    rcases hno : env.npmOutdated with e1 | v1 <;>
    rcases hna : env.npmAudit with e2 | v2 <;>
    simp_all

/-- Concrete environment for the C7 witness: clone succeeds, npm outdated
fails (no manifest). -/
def envC7 : DepsEnv :=
  { mkdtempResult := Except.ok "/tmp/reposage-deps-1"
  , cloneResult := Except.ok ()
  , npmOutdated := Except.error "Command failed: npm outdated --json"
  , npmAudit := Except.ok [] }

/-- C7 witness. -/
theorem deps_no_manifest_graceful_witness :
    (checkDependencies envC7 "https://github.com/o/r").result =
      Except.ok { outdated := [], vulnerabilities := [], summary := noManifestSummary } ∧
    noManifestSummary ≠ "" :=
  deps_no_manifest_graceful envC7 "https://github.com/o/r" "/tmp/reposage-deps-1"
    rfl rfl (Or.inl ⟨"Command failed: npm outdated --json", rfl⟩)

/-- C10: the graceful empty result applies only after a successful clone:
a clone failure propagates its error to the caller, while the finally
block still removes the created temporary directory. -/
theorem deps_clone_error_propagates :
    ∀ (env : DepsEnv) (u d e : String),
      env.mkdtempResult = Except.ok d →
      env.cloneResult = Except.error e →
      (checkDependencies env u).result = Except.error e ∧
      (checkDependencies env u).removed = [d] := by
  intro env u d e hm hc
  unfold checkDependencies
  rw [hm, hc]
  exact ⟨rfl, rfl⟩

/-- Concrete environment for the C10 witness: the clone itself fails. -/
def envC10 : DepsEnv :=
  { mkdtempResult := Except.ok "/tmp/reposage-deps-2"
  , cloneResult := Except.error "fatal: repository not found"
  , npmOutdated := Except.ok []
  , npmAudit := Except.ok [] }

/-- C10 witness. -/
theorem deps_clone_error_propagates_witness :
    (checkDependencies envC10 "https://github.com/o/missing").result =
      Except.error "fatal: repository not found" ∧
    (checkDependencies envC10 "https://github.com/o/missing").removed =
      ["/tmp/reposage-deps-2"] :=
  deps_clone_error_propagates envC10 "https://github.com/o/missing"
    "/tmp/reposage-deps-2" "fatal: repository not found" rfl rfl

theorem classify_nopattern (output : String)
    (hf : findFailed output.data = none) (hp : findPassed output.data = none)
    (ht : findTotal output.data = none) :
    (classifyTestOutput output).passed = false := by
  unfold classifyTestOutput
  simp [hf, hp, ht]

theorem classify_passed_only_if (output : String)
    (h : (classifyTestOutput output).passed = true) :
    (classifyTestOutput output).failedTests = 0 ∧
    0 < (classifyTestOutput output).totalTests := by
  unfold classifyTestOutput at h ⊢
  simp only [Bool.and_eq_true, beq_iff_eq, decide_eq_true_eq] at h
  exact h

/-- C9: in the local test path, when the combined stdout+stderr matches
none of the recognized count patterns (N tests/specs failed or passed,
cross or check marks, N total), the run is never classified as passed; and
in general passed is true only when the failure count is zero and the
recognized total is positive. -/
theorem tests_conservative_classification :
    ∀ (env : TestsEnv) (url : String) (cmd : Option String) (d so se : String),
      env.nosanaEnabled = false →
      url ≠ "" →
      env.mkdtempResult = Except.ok d →
      env.cloneResult = Except.ok () →
      env.execResult = ExecOutcome.ok so se →
      ((findFailed (so ++ se).data = none ∧ findPassed (so ++ se).data = none ∧
          findTotal (so ++ se).data = none →
        (runTests env (some url) cmd).result.passed = false) ∧
       ((runTests env (some url) cmd).result.passed = true →
        (runTests env (some url) cmd).result.failedTests = 0 ∧
        0 < (runTests env (some url) cmd).result.totalTests)) := by
  intro env url cmd d so se hn hu hm hc he
  have hrt : (runTests env (some url) cmd).result = classifyTestOutput (so ++ se) := by
    unfold runTests
    rw [hn, hm, hc, he]
    simp [optTruthy, jsTruthy, hu]
  constructor
  · intro hpat
    rw [hrt]
    exact classify_nopattern _ hpat.1 hpat.2.1 hpat.2.2
  · intro hpass
    rw [hrt] at hpass ⊢
    exact classify_passed_only_if _ hpass

/-- Concrete environment for the C9 witness: output with no recognizable
count pattern. -/
def envC9 : TestsEnv :=
  { nosanaEnabled := false
  , nosanaMarket := ""
  , nosanaExec := Except.ok ("", "")
  , mkdtempResult := Except.ok "/tmp/reposage-test-1"
  , cloneResult := Except.ok ()
  , execResult := ExecOutcome.ok "npm ERR! missing script: test" "" }

/-- C9 witness: unrecognized output is not classified as passed. -/
theorem tests_conservative_classification_witness :
    (runTests envC9 (some "https://github.com/o/r") none).result.passed = false := by
  exact (tests_conservative_classification envC9 "https://github.com/o/r" none
      "/tmp/reposage-test-1" "npm ERR! missing script: test" ""
      rfl (by decide) rfl rfl rfl).1 ⟨by decide, by decide, by decide⟩

end RepoSage
